import Mathlib

/-!
Shallow embedding of the RAG pipeline in `index.js` (the four stage
functions `fetchContent`, `segmentText`, `generateEmbeddings`,
`generateGeminiResponse`, and the orchestrating `main`).

JavaScript runtime values are modelled by the inductive type `JSVal`;
network I/O and interactive readline prompts are modelled by explicit
oracle parameters.  The one outgoing request of a stage (the single network
call it can make) is surfaced in the `sentRequest` field of its result,
so "issues zero network calls" is `sentRequest = none`.  A JavaScript
exception escaping a stage function is modelled by `Except.error`.
-/

/-- A JavaScript runtime value, restricted to the shapes the pipeline
manipulates (JSON-like data plus `undefined`). -/
inductive JSVal where
  | vUndefined : JSVal
  | vNull : JSVal
  | vBool : Bool → JSVal
  | vNum : Int → JSVal
  | vStr : String → JSVal
  | vArr : List JSVal → JSVal
  | vObj : List (String × JSVal) → JSVal
deriving Repr

/-- JavaScript truthiness (`!v` is `¬ truthy v`). -/
def truthy : JSVal → Bool
  | .vUndefined => false
  | .vNull => false
  | .vBool b => b
  | .vNum n => n != 0
  | .vStr s => s != ""
  | .vArr _ => true
  | .vObj _ => true

/-- The JavaScript `typeof` operator on the modelled values. -/
def jsTypeof : JSVal → String
  | .vUndefined => "undefined"
  | .vNull => "object"
  | .vBool _ => "boolean"
  | .vNum _ => "number"
  | .vStr _ => "string"
  | .vArr _ => "object"
  | .vObj _ => "object"

/-- Property lookup on an object field list (`undefined` when absent). -/
def lookupField : List (String × JSVal) → String → JSVal
  | [], _ => .vUndefined
  | (k, v) :: rest, key => if k = key then v else lookupField rest key

/-- JSON string escaping for `JSON.stringify` (quote and backslash;
other characters pass through, enough for the values in play). -/
def jsonEscapeChar (c : Char) : String :=
  if c = '"' then "\\\"" else if c = '\\' then "\\\\" else String.singleton c

/-- A JSON string literal as produced by `JSON.stringify` on a string. -/
def jsonQuote (s : String) : String :=
  "\"" ++ String.join (s.toList.map jsonEscapeChar) ++ "\""

mutual

/-- `JSON.stringify`: `none` models the `undefined` return value (for a
top-level `undefined`); object fields whose value is `undefined` are
dropped; `undefined` array elements serialize as `null`. -/
def jsonStringify : JSVal → Option String
  | .vUndefined => none
  | .vNull => some "null"
  | .vBool b => some (cond b "true" "false")
  | .vNum n => some (toString n)
  | .vStr s => some (jsonQuote s)
  | .vArr xs => some ("[" ++ String.intercalate "," (jsonStringifyArr xs) ++ "]")
  | .vObj fs => some ("\x7b" ++ String.intercalate "," (jsonStringifyObj fs) ++ "\x7d")

/-- Serialize array elements for `jsonStringify`. -/
def jsonStringifyArr : List JSVal → List String
  | [] => []
  | x :: xs => ((jsonStringify x).getD "null") :: jsonStringifyArr xs

/-- Serialize object fields for `jsonStringify`. -/
def jsonStringifyObj : List (String × JSVal) → List String
  | [] => []
  | (k, v) :: fs =>
    match jsonStringify v with
    | none => jsonStringifyObj fs
    | some s => (jsonQuote k ++ ":" ++ s) :: jsonStringifyObj fs

end

/-- JavaScript `s.substring(0, n)`: the first at-most-`n` characters. -/
def jsSubstring0 (s : String) (n : Nat) : String :=
  ⟨s.toList.take n⟩

mutual

/-- String coercion (`String(v)`, as used by `String.prototype.replace`
for a non-string replacement and by `console.log`). -/
def jsToString : JSVal → String
  | .vUndefined => "undefined"
  | .vNull => "null"
  | .vBool b => cond b "true" "false"
  | .vNum n => toString n
  | .vStr s => s
  | .vArr xs => String.intercalate "," (jsToStringElems xs)
  | .vObj _ => "[object Object]"

/-- Elementwise coercion used by array `toString`. -/
def jsToStringElems : List JSVal → List String
  | [] => []
  | x :: xs => jsToString x :: jsToStringElems xs

end

/-- `JSON.stringify(item).substring(0, 1000)` — throws a `TypeError`
when the stringify result is `undefined`. -/
def stringifyTrunc (item : JSVal) : Except String String :=
  match jsonStringify item with
  | some s => .ok (jsSubstring0 s 1000)
  | none => .error "TypeError: Cannot read properties of undefined (reading substring)"

/-- One element of the `inputs.map(...)` normalization inside
`generateEmbeddings` (index.js lines 135-143): strings are truncated to
1000 characters; an object whose `text` property is truthy uses that
property truncated (a non-string `text` makes `.substring` throw);
anything else is `JSON.stringify`-ed then truncated.  Accessing `.text`
on `null` throws.  These throws happen outside the `try` block of
the function, so they surface as `Except.error`. -/
def normalizeItem : JSVal → Except String String
  | .vStr s => .ok (jsSubstring0 s 1000)
  | .vNull => .error "TypeError: Cannot read properties of null (reading text)"
  | .vObj fields =>
    let t := lookupField fields "text"
    if truthy t then
      match t with
      | .vStr s => .ok (jsSubstring0 s 1000)
      | _ => .error "TypeError: item.text.substring is not a function"
    else
      stringifyTrunc (.vObj fields)
  | .vArr elems => stringifyTrunc (.vArr elems)
  | other => stringifyTrunc other

/-- `inputs.map(item => ...)` over the whole array: the first element
whose normalization throws aborts the map with that exception. -/
def mapNormalize : List JSVal → Except String (List String)
  | [] => .ok []
  | x :: xs =>
    match normalizeItem x with
    | .error e => .error e
    | .ok s =>
      match mapNormalize xs with
      | .error e => .error e
      | .ok rest => .ok (s :: rest)

/-- Whether the first list is a prefix of the second. -/
def isPrefixOfChars : List Char → List Char → Bool
  | [], _ => true
  | _ :: _, [] => false
  | a :: as, b :: bs => a == b && isPrefixOfChars as bs

/-- Whether `needle` occurs as a contiguous substring of `hay`. -/
def containsChars : List Char → List Char → Bool
  | [], needle => isPrefixOfChars needle []
  | c :: t, needle => isPrefixOfChars needle (c :: t) || containsChars t needle

/-- `s.includes(pat)` on strings (substring containment). -/
def containsSubstr (s pat : String) : Bool :=
  containsChars s.toList pat.toList

/-- `s.startsWith(pat)` on strings. -/
def jsStartsWith (s pat : String) : Bool :=
  isPrefixOfChars pat.toList s.toList

/-- Replace the first occurrence of `needle` in `hay` by `repl`. -/
def replaceFirstChars (hay needle repl : List Char) : List Char :=
  match hay with
  | [] => []
  | c :: t =>
    if isPrefixOfChars needle hay then repl ++ hay.drop needle.length
    else c :: replaceFirstChars t needle repl

/-- Replace the first occurrence of `pat` in `s` by `repl`
(JavaScript `String.prototype.replace` with a string pattern). -/
def replaceFirst (s pat repl : String) : String :=
  ⟨replaceFirstChars s.toList pat.toList repl.toList⟩

/-- A JavaScript whitespace character (the ones `trim` strips). -/
def isJsSpace (c : Char) : Bool :=
  c == ' ' || c == '\t' || c == '\n' || c == '\r' || c == '\x0b' || c == '\x0c'

/-- `s.trim()`: strip leading and trailing whitespace. -/
def jsTrim (s : String) : String :=
  ⟨((s.toList.dropWhile isJsSpace).reverse.dropWhile isJsSpace).reverse⟩

/-- Outcome of one stage function: its return value (or the exception
that escaped it), the console lines it logged, and the one network
request it sent, if any.  `result = Except.ok JSVal.vNull` is the soft
`return null` failure path; `sentRequest = none` means the stage issued
zero network calls. -/
structure StageResult (ρ : Type) where
  result : Except String JSVal
  log : List String
  sentRequest : Option ρ
deriving Repr

/-- The try-block outcome of the content-extraction GET in
`fetchContent`: either the fetch rejected, or a response arrived with a
declared content-type header (absent headers return `null`, modelled by
`none`), a JSON parse outcome for the `response.json()` path, the raw
`response.text()` body, and the text JSDOM extracts from the body for
the HTML path. -/
inductive HttpOutcome where
  | fail : String → HttpOutcome
  | resp : Option String → Except String JSVal → String → String → HttpOutcome
deriving Repr

/-- Outcome of a single JSON-response network call (the fetch in `segmentText`, the axios post in `generateEmbeddings`, or the Gemini SDK call):
either it rejects with an error message or yields parsed data. -/
inductive NetResult where
  | fail : String → NetResult
  | resp : JSVal → NetResult
deriving Repr

/-- The body of `fetchContent` (index.js lines 61-88) once the url is
known to be a string: a url not starting with `"http"` logs
`"Invalid URL."` and returns `null` with no network call; otherwise the
stage GETs the extraction proxy and branches on the declared content
type; every error inside the `try` is caught and yields `null`. -/
def fetchContentOnUrl (u : String) (net : HttpOutcome) : StageResult String :=
  if ¬ jsStartsWith u "http" then
    { result := .ok .vNull, log := ["Invalid URL."], sentRequest := none }
  else
    let reqUrl := "https://r.jina.ai/" ++ u
    let fetchLog := "Fetching content from: " ++ u
    match net with
    | .fail msg =>
      { result := .ok .vNull,
        log := [fetchLog, "Error fetching content: " ++ msg],
        sentRequest := some reqUrl }
    | .resp contentType jsonBody textBody domBodyText =>
      match contentType with
      | none =>
        { result := .ok .vNull,
          log := [fetchLog,
            "Error fetching content: Cannot read properties of null (reading includes)"],
          sentRequest := some reqUrl }
      | some ct =>
        if containsSubstr ct "application/json" then
          match jsonBody with
          | .error msg =>
            { result := .ok .vNull,
              log := [fetchLog, "Error fetching content: " ++ msg],
              sentRequest := some reqUrl }
          | .ok v =>
            { result := .ok v,
              log := [fetchLog, "Content fetched successfully."],
              sentRequest := some reqUrl }
        else if containsSubstr ct "text/html" then
          { result := .ok (.vStr domBodyText),
            log := [fetchLog, "Content fetched successfully."],
            sentRequest := some reqUrl }
        else
          { result := .ok (.vStr textBody),
            log := [fetchLog, "Content fetched successfully."],
            sentRequest := some reqUrl }

/-- `fetchContent(url)` (index.js lines 52-89).  A falsy `url` is
replaced by the interactive readline answer `promptAnswer`; calling
`.startsWith` on a truthy non-string url throws outside the `try`
block; a string url is handled by `fetchContentOnUrl`. -/
def fetchContent (url : JSVal) (promptAnswer : String) (net : HttpOutcome) :
    StageResult String :=
  let url := if truthy url then url else JSVal.vStr promptAnswer
  match url with
  | .vStr u => fetchContentOnUrl u net
  | _ =>
    { result := .error "TypeError: url.startsWith is not a function",
      log := [], sentRequest := none }

/-- The JSON body `segmentText` posts to the segmentation service. -/
structure SegmentRequest where
  content : String
  return_chunks : Bool
  return_tokens : Bool
  max_chunk_length : Nat
deriving Repr, DecidableEq

/-- The body of `segmentText` (index.js lines 103-127) once the
content has been coerced to a string: an empty-after-trim string logs
`"No text provided."` and returns `null` with no network call;
otherwise the fixed-option request is posted and any error inside the
`try` yields `null`. -/
def segmentTextOnString (s : String) (net : NetResult) : StageResult SegmentRequest :=
  if jsTrim s = "" then
    { result := .ok .vNull, log := ["No text provided."], sentRequest := none }
  else
    let req : SegmentRequest :=
      { content := s, return_chunks := true, return_tokens := true,
        max_chunk_length := 1500 }
    match net with
    | .fail msg =>
      { result := .ok .vNull,
        log := ["Attempting to segment text...", "Error segmenting text: " ++ msg],
        sentRequest := some req }
    | .resp d =>
      { result := .ok d,
        log := ["Attempting to segment text...", "Text segmentation successful."],
        sentRequest := some req }

/-- `segmentText(content)` (index.js lines 91-128).  A falsy `content`
is replaced by the interactive readline answer `promptAnswer`;
non-string content is `JSON.stringify`-ed (an `undefined` stringify
result would make `content.trim()` throw, which cannot happen here
because a falsy content was already replaced by the prompt string);
the resulting string is handled by `segmentTextOnString`. -/
def segmentText (content : JSVal) (promptAnswer : String) (net : NetResult) :
    StageResult SegmentRequest :=
  let content := if truthy content then content else JSVal.vStr promptAnswer
  let contentStr : Except String String :=
    match content with
    | .vStr s => .ok s
    | other =>
      match jsonStringify other with
      | some s => .ok s
      | none => .error "TypeError: content.trim is not a function"
  match contentStr with
  | .error e => { result := .error e, log := [], sentRequest := none }
  | .ok s => segmentTextOnString s net

/-- One `\x7b text \x7d` entry of the embedding request body. -/
structure EmbeddingEntry where
  text : String
deriving Repr, DecidableEq

/-- The JSON body `generateEmbeddings` posts to the embedding service
(index.js lines 144-149). -/
structure EmbeddingRequest where
  model : String
  normalized : Bool
  embedding_type : String
  input : List EmbeddingEntry
deriving Repr, DecidableEq

/-- Build the embedding request from the normalized input strings. -/
def buildEmbeddingRequest (strs : List String) : EmbeddingRequest :=
  { model := "jina-clip-v2", normalized := true, embedding_type := "float",
    input := strs.map (fun t => { text := t }) }

/-- `generateEmbeddings(inputs)` (index.js lines 130-158).  A falsy or
empty-array `inputs` logs a diagnostic and returns `null` with no
network call.  A truthy non-array makes `inputs.map` throw (outside the
`try`), as does a normalization failure on any element.  Otherwise the
fixed-shape request is posted; errors inside the `try` yield `null`. -/
def generateEmbeddings (inputs : JSVal) (net : NetResult) :
    StageResult EmbeddingRequest :=
  if ¬ truthy inputs then
    { result := .ok .vNull,
      log := ["No inputs provided for embedding generation."],
      sentRequest := none }
  else
    match inputs with
    | .vArr [] =>
      { result := .ok .vNull,
        log := ["No inputs provided for embedding generation."],
        sentRequest := none }
    | .vArr items =>
      match mapNormalize items with
      | .error e => { result := .error e, log := [], sentRequest := none }
      | .ok strs =>
        let req := buildEmbeddingRequest strs
        match net with
        | .fail msg =>
          { result := .ok .vNull,
            log := ["Attempting to generate embeddings...",
                    "Error generating embeddings: " ++ msg],
            sentRequest := some req }
        | .resp d =>
          { result := .ok d,
            log := ["Attempting to generate embeddings..."],
            sentRequest := some req }
    | _ =>
      { result := .error "TypeError: inputs.map is not a function",
        log := [], sentRequest := none }

/-- The system prompt template of index.js lines 44-50. -/
def SYSTEM_PROMPT : String :=
  "You are a knowledgeable assistant designed to answer user questions accurately and concisely by utilizing retrieved documents.\n*DOCUMENT:* {document}\n---*QUESTION:* {question}\n---*INSTRUCTIONS:*\n- Answer the user\u0027s question using the information from the document above\n- Ensure your response is factual, specific, and relevant to the question\n- Keep your answer clear and concise, ideally within 2-3 sentences"

/-- `generateGeminiResponse(document, question)` (index.js lines
160-169).  No input validation: the document is `JSON.stringify`-ed (an
`undefined` stringify result is coerced to the string `"undefined"` by
`replace`), both placeholders are filled, and the prompt is always
submitted to the generative-language service; any error inside the
`try` yields `null`.  The sent prompt is the request of the stage. -/
def generateGeminiResponse (document question : JSVal) (net : NetResult) :
    StageResult String :=
  let docStr := (jsonStringify document).getD "undefined"
  let prompt :=
    replaceFirst (replaceFirst SYSTEM_PROMPT "{document}" docStr)
      "{question}" (jsToString question)
  match net with
  | .fail msg =>
    { result := .ok .vNull,
      log := ["Error generating Gemini response: " ++ msg],
      sentRequest := some prompt }
  | .resp d =>
    { result := .ok d, log := [], sentRequest := some prompt }

/-- Terminal situation of one pipeline run: `done` is the
"Workflow completed successfully!" exit, `failed` any of the printed
failure exits, `crashed` an exception escaping into `main().catch`. -/
inductive PState where
  | failed : PState
  | done : PState
  | crashed : PState
deriving Repr, DecidableEq

/-- Everything external a single `main()` run consumes: the two
readline answers `main` itself collects, the inner readline answers the
stages would collect for falsy arguments, and one network oracle per
stage. -/
structure World where
  urlAnswer : String
  fetchPromptAnswer : String
  segPromptAnswer : String
  questionAnswer : String
  fetchNet : HttpOutcome
  segNet : NetResult
  embNet : NetResult
  gemNet : NetResult
deriving Repr

/-- Observable outcome of one `main()` run. -/
structure RunResult where
  log : List String
  finalState : PState
  embeddingsInvoked : Bool
  geminiInvoked : Bool
  answer : Option String
deriving Repr

/-- `main()` (index.js lines 171-211): the four stages in order.  A
falsy fetch result prints `"Content fetching failed. Exiting."` and
returns; a falsy segmentation result prints
`"Text segmentation failed. Exiting."` and returns, so stages 3 and 4
never run; the embeddings result is never checked; a truthy Gemini
response is printed as the final answer, a falsy one prints the error
notice.  A stage exception escapes to `main().catch(console.error)`. -/
def runMain (w : World) : RunResult :=
  let fch := fetchContent (.vStr w.urlAnswer) w.fetchPromptAnswer w.fetchNet
  let log1 := "\n--- Step 1: Fetching Content ---" :: fch.log
  match fch.result with
  | .error _ =>
    { log := log1, finalState := .crashed, embeddingsInvoked := false,
      geminiInvoked := false, answer := none }
  | .ok fetched =>
    if ¬ truthy fetched then
      { log := log1 ++ ["Content fetching failed. Exiting."],
        finalState := .failed, embeddingsInvoked := false,
        geminiInvoked := false, answer := none }
    else
      let seg := segmentText fetched w.segPromptAnswer w.segNet
      let log2 := log1 ++ "\n--- Step 2: Segmenting Text ---" :: seg.log
      match seg.result with
      | .error _ =>
        { log := log2, finalState := .crashed, embeddingsInvoked := false,
          geminiInvoked := false, answer := none }
      | .ok segmented =>
        if ¬ truthy segmented then
          { log := log2 ++ ["Text segmentation failed. Exiting."],
            finalState := .failed, embeddingsInvoked := false,
            geminiInvoked := false, answer := none }
        else
          let emb := generateEmbeddings (.vArr [segmented]) w.embNet
          let log3 := log2 ++ "\n--- Step 3: Generating Embeddings ---" :: emb.log
          match emb.result with
          | .error _ =>
            { log := log3, finalState := .crashed, embeddingsInvoked := true,
              geminiInvoked := false, answer := none }
          | .ok _ =>
            let gem := generateGeminiResponse segmented (.vStr w.questionAnswer) w.gemNet
            let log4 := log3 ++ "\n--- Step 4: Generating AI Response ---" :: gem.log
            match gem.result with
            | .error _ =>
              { log := log4, finalState := .crashed, embeddingsInvoked := true,
                geminiInvoked := true, answer := none }
            | .ok resp =>
              if truthy resp then
                { log := log4 ++ ["\n--- Gemini\u0027s Response ---", jsToString resp,
                                  "\nWorkflow completed successfully!"],
                  finalState := .done, embeddingsInvoked := true,
                  geminiInvoked := true, answer := some (jsToString resp) }
              else
                { log := log4 ++
                    ["\nWorkflow encountered an error during AI response generation."],
                  finalState := .failed, embeddingsInvoked := true,
                  geminiInvoked := true, answer := none }

/-- A 1001-character string, used as a concrete over-length embedding
input. -/
def longA : String := ⟨List.replicate 1001 'a'⟩

/-- A concrete run in which fetching succeeds (plain-text body
`"BODY"`) and the segmentation service is unreachable. -/
def w1 : World :=
  { urlAnswer := "http://example.com", fetchPromptAnswer := "", segPromptAnswer := "",
    questionAnswer := "what is this page about?",
    fetchNet := .resp (some "text/plain") (.ok .vNull) "BODY" "",
    segNet := .fail "socket hang up", embNet := .resp .vNull,
    gemNet := .resp (.vStr "an answer") }

/-- A concrete run in which fetching and segmentation succeed, the
embedding service fails, and generation succeeds. -/
def w2 : World :=
  { urlAnswer := "http://example.com", fetchPromptAnswer := "", segPromptAnswer := "",
    questionAnswer := "what is this page about?",
    fetchNet := .resp (some "text/plain") (.ok .vNull) "BODY" "",
    segNet := .resp (.vStr "CHUNKS"), embNet := .fail "Request failed with status code 500",
    gemNet := .resp (.vStr "The answer.") }

/-- `null` is falsy. -/
theorem truthy_vNull : truthy JSVal.vNull = false := rfl

/-- A string is truthy exactly when non-empty. -/
theorem truthy_vStr (s : String) : truthy (JSVal.vStr s) = (s != "") := rfl

/-- String coercion is the identity on strings. -/
theorem jsToString_vStr (s : String) : jsToString (JSVal.vStr s) = s := rfl

/-- The length of a JavaScript substring-from-zero. -/
theorem jsSubstring0_length (s : String) (n : Nat) :
    (jsSubstring0 s n).length = min n s.length := by
  show (s.data.take n).length = min n s.length
  rw [List.length_take]
  rfl

/-- Truncating an already-truncated string changes nothing. -/
theorem jsSubstring0_idem (s : String) (n : Nat) :
    jsSubstring0 (jsSubstring0 s n) n = jsSubstring0 s n := by
  show (⟨(s.data.take n).take n⟩ : String) = ⟨s.data.take n⟩
  rw [List.take_take, Nat.min_self]

/-- The post-coercion body of `segmentText` never throws. -/
theorem segmentTextOnString_no_throw (s : String) (net : NetResult) :
    ∃ v, (segmentTextOnString s net).result = Except.ok v := by
  unfold segmentTextOnString
  split
  · exact ⟨_, rfl⟩
  · cases net with
    | fail msg => exact ⟨_, rfl⟩
    | resp d => exact ⟨_, rfl⟩

/-- `segmentText` never throws, for any modelled input value. -/
theorem segmentText_no_throw (content : JSVal) (promptAnswer : String) (net : NetResult) :
    ∃ v, (segmentText content promptAnswer net).result = Except.ok v := by
  cases content with
  | vStr s =>
    by_cases hs : s = ""
    · subst hs
      simpa [segmentText, truthy] using segmentTextOnString_no_throw promptAnswer net
    · simpa [segmentText, truthy, hs] using segmentTextOnString_no_throw s net
  | vUndefined => simpa [segmentText, truthy] using segmentTextOnString_no_throw promptAnswer net
  | vNull => simpa [segmentText, truthy] using segmentTextOnString_no_throw promptAnswer net
  | vBool b =>
    cases b
    · simpa [segmentText, truthy] using segmentTextOnString_no_throw promptAnswer net
    · simpa [segmentText, truthy, jsonStringify] using
        segmentTextOnString_no_throw "true" net
  | vNum n =>
    by_cases hn : n = 0
    · subst hn
      simpa [segmentText, truthy] using segmentTextOnString_no_throw promptAnswer net
    · simpa [segmentText, truthy, hn, jsonStringify] using
        segmentTextOnString_no_throw (toString n) net
  | vArr xs =>
    simpa [segmentText, truthy, jsonStringify] using
      segmentTextOnString_no_throw ("[" ++ String.intercalate "," (jsonStringifyArr xs) ++ "]") net
  | vObj fs =>
    simpa [segmentText, truthy, jsonStringify] using
      segmentTextOnString_no_throw ("\x7b" ++ String.intercalate "," (jsonStringifyObj fs) ++ "\x7d") net

/-- `generateGeminiResponse` never throws. -/
theorem generateGeminiResponse_no_throw (document question : JSVal) (net : NetResult) :
    ∃ v, (generateGeminiResponse document question net).result = Except.ok v := by
  cases net with
  | fail msg => exact ⟨_, rfl⟩
  | resp d => exact ⟨_, rfl⟩

/-- The post-validation body of `fetchContent` never throws. -/
theorem fetchContentOnUrl_no_throw (u : String) (net : HttpOutcome) :
    ∃ v, (fetchContentOnUrl u net).result = Except.ok v := by
  unfold fetchContentOnUrl
  split
  · exact ⟨_, rfl⟩
  · cases net with
    | fail msg => exact ⟨_, rfl⟩
    | resp ct j t d =>
      cases ct with
      | none => exact ⟨_, rfl⟩
      | some c =>
        dsimp only
        split
        · cases j with
          | error e => exact ⟨_, rfl⟩
          | ok v => exact ⟨_, rfl⟩
        · split
          · exact ⟨_, rfl⟩
          · exact ⟨_, rfl⟩

/-- `fetchContent` never throws on a string url. -/
theorem fetchContent_no_throw_str (s : String) (promptAnswer : String) (net : HttpOutcome) :
    ∃ v, (fetchContent (JSVal.vStr s) promptAnswer net).result = Except.ok v := by
  by_cases hs : s = ""
  · subst hs
    simpa [fetchContent, truthy] using fetchContentOnUrl_no_throw promptAnswer net
  · simpa [fetchContent, truthy, hs] using fetchContentOnUrl_no_throw s net

/-- `fetchContent` never throws on a falsy url (the prompt answer is
used instead). -/
theorem fetchContent_no_throw_falsy (url : JSVal) (promptAnswer : String)
    (net : HttpOutcome) (h : truthy url = false) :
    ∃ v, (fetchContent url promptAnswer net).result = Except.ok v := by
  simpa [fetchContent, h] using fetchContentOnUrl_no_throw promptAnswer net

/-- `generateEmbeddings` never throws when every element of the input
array normalizes without a type error. -/
theorem generateEmbeddings_no_throw (items : List JSVal) (strs : List String)
    (net : NetResult) (h : mapNormalize items = Except.ok strs) :
    ∃ v, (generateEmbeddings (JSVal.vArr items) net).result = Except.ok v := by
  cases items with
  | nil => exact ⟨_, rfl⟩
  | cons x xs =>
    simp only [generateEmbeddings, truthy, h]
    cases net with
    | fail msg => exact ⟨_, rfl⟩
    | resp d => exact ⟨_, rfl⟩

/-- A successful `mapNormalize` preserves length and normalizes each
element at its own position. -/
theorem mapNormalize_ok (items : List JSVal) (strs : List String)
    (h : mapNormalize items = Except.ok strs) :
    strs.length = items.length ∧
    ∀ i (hi : i < items.length) (hi' : i < strs.length),
      normalizeItem (items.get ⟨i, hi⟩) = Except.ok (strs.get ⟨i, hi'⟩) := by
  induction items generalizing strs with
  | nil =>
    simp [mapNormalize] at h
    subst h
    exact ⟨rfl, fun i hi => absurd hi (Nat.not_lt_zero i)⟩
  | cons x xs ih =>
    cases hx : normalizeItem x with
    | error e => simp [mapNormalize, hx] at h
    | ok s =>
      cases hrest : mapNormalize xs with
      | error e => simp [mapNormalize, hx, hrest] at h
      | ok rest =>
        simp only [mapNormalize, hx, hrest] at h
        have hstrs : strs = s :: rest := by
          cases h; rfl
        subst hstrs
        obtain ⟨hlen, hget⟩ := ih rest hrest
        refine ⟨by simp [hlen], ?_⟩
        intro i hi hi'
        cases i with
        | zero => simpa using hx
        | succ j =>
          have hj : j < xs.length := Nat.lt_of_succ_lt_succ hi
          have hj' : j < rest.length := Nat.lt_of_succ_lt_succ hi'
          simpa using hget j hj hj'

/-- C1: In the orchestrated pipeline, whenever stage 1 produced truthy
content but `segmentText` returns `null`, the run ends in the `Failed`
state, the console shows `"Text segmentation failed. Exiting."`, and
neither `generateEmbeddings` nor `generateGeminiResponse` is invoked. -/
theorem segmentation_null_halts_pipeline (w : World) (c : JSVal)
    (h1 : (fetchContent (JSVal.vStr w.urlAnswer) w.fetchPromptAnswer w.fetchNet).result =
      Except.ok c)
    (h2 : truthy c = true)
    (h3 : (segmentText c w.segPromptAnswer w.segNet).result = Except.ok JSVal.vNull) :
    (runMain w).finalState = PState.failed ∧
    "Text segmentation failed. Exiting." ∈ (runMain w).log ∧
    (runMain w).embeddingsInvoked = false ∧
    (runMain w).geminiInvoked = false := by
  simp only [runMain, h1, h3]
  simp [h2, truthy_vNull, List.mem_append]

/-- C1 witness: in the concrete run `w1` (segmentation service down)
the pipeline fails after stage 2. -/
theorem segmentation_null_halts_pipeline_witness :
    ((fetchContent (JSVal.vStr w1.urlAnswer) w1.fetchPromptAnswer w1.fetchNet).result =
      Except.ok (JSVal.vStr "BODY") ∧
     truthy (JSVal.vStr "BODY") = true ∧
     (segmentText (JSVal.vStr "BODY") w1.segPromptAnswer w1.segNet).result =
      Except.ok JSVal.vNull) ∧
    ((runMain w1).finalState = PState.failed ∧
     "Text segmentation failed. Exiting." ∈ (runMain w1).log ∧
     (runMain w1).embeddingsInvoked = false ∧
     (runMain w1).geminiInvoked = false) :=
  ⟨⟨rfl, rfl, rfl⟩, segmentation_null_halts_pipeline w1 (JSVal.vStr "BODY") rfl rfl rfl⟩

/-- C2: a `null` embedding result does not halt the pipeline: whenever
`generateEmbeddings` returns `null` and `generateGeminiResponse`
returns a non-empty answer string, the run ends in `Done` and the
answer is produced (recorded and printed). -/
theorem embedding_null_non_fatal (w : World) (c seg : JSVal) (ans : String)
    (h1 : (fetchContent (JSVal.vStr w.urlAnswer) w.fetchPromptAnswer w.fetchNet).result =
      Except.ok c)
    (h2 : truthy c = true)
    (h3 : (segmentText c w.segPromptAnswer w.segNet).result = Except.ok seg)
    (h4 : truthy seg = true)
    (h5 : (generateEmbeddings (JSVal.vArr [seg]) w.embNet).result = Except.ok JSVal.vNull)
    (h6 : (generateGeminiResponse seg (JSVal.vStr w.questionAnswer) w.gemNet).result =
      Except.ok (JSVal.vStr ans))
    (h7 : ans ≠ "") :
    (runMain w).finalState = PState.done ∧
    (runMain w).answer = some ans ∧
    ans ∈ (runMain w).log := by
  simp only [runMain, h1, h3, h5, h6]
  simp [h2, h4, h7, truthy_vStr, jsToString_vStr, List.mem_append]

/-- C2 witness: in the concrete run `w2` (embedding service fails with
a 500, generation succeeds) the pipeline still reaches `Done`. -/
theorem embedding_null_non_fatal_witness :
    ((fetchContent (JSVal.vStr w2.urlAnswer) w2.fetchPromptAnswer w2.fetchNet).result =
      Except.ok (JSVal.vStr "BODY") ∧
     truthy (JSVal.vStr "BODY") = true ∧
     (segmentText (JSVal.vStr "BODY") w2.segPromptAnswer w2.segNet).result =
      Except.ok (JSVal.vStr "CHUNKS") ∧
     truthy (JSVal.vStr "CHUNKS") = true ∧
     (generateEmbeddings (JSVal.vArr [JSVal.vStr "CHUNKS"]) w2.embNet).result =
      Except.ok JSVal.vNull ∧
     (generateGeminiResponse (JSVal.vStr "CHUNKS") (JSVal.vStr w2.questionAnswer)
        w2.gemNet).result = Except.ok (JSVal.vStr "The answer.") ∧
     "The answer." ≠ "") ∧
    ((runMain w2).finalState = PState.done ∧
     (runMain w2).answer = some "The answer." ∧
     "The answer." ∈ (runMain w2).log) :=
  ⟨⟨rfl, rfl, rfl, rfl, rfl, rfl, by decide⟩,
   embedding_null_non_fatal w2 (JSVal.vStr "BODY") (JSVal.vStr "CHUNKS") "The answer."
     rfl rfl rfl rfl rfl rfl (by decide)⟩

/-- C3 counterexample: `generateEmbeddings([null])` lets a `TypeError`
escape to the caller — the element normalization (`item.text` on
`null`) happens outside the `try` block — so it is not the case that
every stage function returns a value for every input. -/
theorem embeddings_null_element_throws :
    (generateEmbeddings (JSVal.vArr [JSVal.vNull]) (NetResult.resp JSVal.vNull)).result =
      Except.error "TypeError: Cannot read properties of null (reading text)" := rfl

/-- C3 amended: `segmentText` and `generateGeminiResponse` return a
value (content or `null`) on every input; `fetchContent` does so on
every string url and on every falsy url; `generateEmbeddings` does so
on every array whose elements all normalize without a type error — but
inputs whose pre-request handling throws (such as a `null` array
element) propagate an exception instead. -/
theorem stage_soft_failure_policy :
    (∀ content promptAnswer net, ∃ v,
      (segmentText content promptAnswer net).result = Except.ok v) ∧
    (∀ document question net, ∃ v,
      (generateGeminiResponse document question net).result = Except.ok v) ∧
    (∀ s promptAnswer net, ∃ v,
      (fetchContent (JSVal.vStr s) promptAnswer net).result = Except.ok v) ∧
    (∀ url promptAnswer net, truthy url = false →
      ∃ v, (fetchContent url promptAnswer net).result = Except.ok v) ∧
    (∀ items strs net, mapNormalize items = Except.ok strs →
      ∃ v, (generateEmbeddings (JSVal.vArr items) net).result = Except.ok v) :=
  ⟨segmentText_no_throw, generateGeminiResponse_no_throw, fetchContent_no_throw_str,
   fun url pa net h => fetchContent_no_throw_falsy url pa net h,
   fun items strs net h => generateEmbeddings_no_throw items strs net h⟩

/-- C3 witness: the soft-failure policy at concrete inputs. -/
theorem stage_soft_failure_policy_witness :
    (∃ v, (segmentText (JSVal.vStr "hi") "p" (NetResult.fail "net down")).result =
      Except.ok v) ∧
    (∃ v, (generateGeminiResponse JSVal.vNull (JSVal.vStr "q")
      (NetResult.resp (JSVal.vStr "a"))).result = Except.ok v) ∧
    (∃ v, (fetchContent (JSVal.vStr "http://x") "p" (HttpOutcome.fail "down")).result =
      Except.ok v) ∧
    (∃ v, (fetchContent JSVal.vNull "http://y" (HttpOutcome.fail "down")).result =
      Except.ok v) ∧
    (∃ v, (generateEmbeddings (JSVal.vArr [JSVal.vStr "chunk"]) (NetResult.fail "x")).result =
      Except.ok v) :=
  ⟨stage_soft_failure_policy.1 (JSVal.vStr "hi") "p" (NetResult.fail "net down"),
   stage_soft_failure_policy.2.1 JSVal.vNull (JSVal.vStr "q") (NetResult.resp (JSVal.vStr "a")),
   stage_soft_failure_policy.2.2.1 "http://x" "p" (HttpOutcome.fail "down"),
   stage_soft_failure_policy.2.2.2.1 JSVal.vNull "http://y" (HttpOutcome.fail "down") rfl,
   stage_soft_failure_policy.2.2.2.2 [JSVal.vStr "chunk"] ["chunk"] (NetResult.fail "x") rfl⟩

/-- C4 counterexample: `segmentText("")` does not return `null` — the
empty string is falsy, so the stage prompts interactively, processes
the prompted text (`"hello"`), and issues a network call. -/
theorem segmentText_empty_string_prompts :
    (segmentText (JSVal.vStr "") "hello" (NetResult.resp (JSVal.vStr "SEGMENTS"))).result =
      Except.ok (JSVal.vStr "SEGMENTS") ∧
    (segmentText (JSVal.vStr "") "hello" (NetResult.resp (JSVal.vStr "SEGMENTS"))).sentRequest =
      some { content := "hello", return_chunks := true, return_tokens := true,
             max_chunk_length := 1500 } :=
  ⟨rfl, rfl⟩

/-- C4 amended: for every non-empty whitespace-only text argument,
`segmentText` returns `null`, issues zero network calls, and logs
`"No text provided."`; an empty text argument instead triggers the
interactive prompt. -/
theorem segmentText_whitespace_only_rejected (s promptAnswer : String) (net : NetResult)
    (hne : s ≠ "") (htrim : jsTrim s = "") :
    (segmentText (JSVal.vStr s) promptAnswer net).result = Except.ok JSVal.vNull ∧
    (segmentText (JSVal.vStr s) promptAnswer net).sentRequest = none ∧
    (segmentText (JSVal.vStr s) promptAnswer net).log = ["No text provided."] := by
  simp [segmentText, truthy, hne, segmentTextOnString, htrim]

/-- C4 witness: a single space is rejected with no network call. -/
theorem segmentText_whitespace_only_rejected_witness :
    (" " ≠ "" ∧ jsTrim " " = "") ∧
    ((segmentText (JSVal.vStr " ") "p" (NetResult.fail "x")).result = Except.ok JSVal.vNull ∧
     (segmentText (JSVal.vStr " ") "p" (NetResult.fail "x")).sentRequest = none ∧
     (segmentText (JSVal.vStr " ") "p" (NetResult.fail "x")).log = ["No text provided."]) :=
  ⟨⟨by decide, rfl⟩, segmentText_whitespace_only_rejected " " "p" (NetResult.fail "x") (by decide) rfl⟩

/-- C5 counterexample: `fetchContent("")` does not return `null` even
though `""` does not begin with `"http"` — the empty string is falsy,
so the stage prompts interactively and fetches the prompted url,
issuing a network call. -/
theorem fetchContent_empty_url_prompts :
    (fetchContent (JSVal.vStr "") "http://example.com"
        (HttpOutcome.resp (some "text/plain") (Except.ok JSVal.vNull) "BODY" "")).result =
      Except.ok (JSVal.vStr "BODY") ∧
    (fetchContent (JSVal.vStr "") "http://example.com"
        (HttpOutcome.resp (some "text/plain") (Except.ok JSVal.vNull) "BODY" "")).sentRequest =
      some "https://r.jina.ai/http://example.com" :=
  ⟨rfl, rfl⟩

/-- C5 amended: for every non-empty url string not beginning with the
prefix `"http"`, `fetchContent` returns `null`, issues zero network
calls, and logs `"Invalid URL."`; an empty url string instead triggers
the interactive prompt. -/
theorem fetchContent_invalid_scheme_rejected (u promptAnswer : String) (net : HttpOutcome)
    (hne : u ≠ "") (hpre : jsStartsWith u "http" = false) :
    (fetchContent (JSVal.vStr u) promptAnswer net).result = Except.ok JSVal.vNull ∧
    (fetchContent (JSVal.vStr u) promptAnswer net).sentRequest = none ∧
    (fetchContent (JSVal.vStr u) promptAnswer net).log = ["Invalid URL."] := by
  simp [fetchContent, truthy, hne, fetchContentOnUrl, hpre]

/-- C5 witness: an ftp url is rejected with no network call. -/
theorem fetchContent_invalid_scheme_rejected_witness :
    ("ftp://files.example.com" ≠ "" ∧
      jsStartsWith "ftp://files.example.com" "http" = false) ∧
    ((fetchContent (JSVal.vStr "ftp://files.example.com") "p" (HttpOutcome.fail "x")).result =
      Except.ok JSVal.vNull ∧
     (fetchContent (JSVal.vStr "ftp://files.example.com") "p" (HttpOutcome.fail "x")).sentRequest =
      none ∧
     (fetchContent (JSVal.vStr "ftp://files.example.com") "p" (HttpOutcome.fail "x")).log =
      ["Invalid URL."]) :=
  ⟨⟨by decide, rfl⟩,
   fetchContent_invalid_scheme_rejected "ftp://files.example.com" "p" (HttpOutcome.fail "x")
     (by decide) rfl⟩

/-- C6: for an empty input array, and for a missing (`null` or
`undefined`) input, `generateEmbeddings` returns `null` and issues zero
network calls, for every network oracle. -/
theorem generateEmbeddings_empty_or_missing_rejected (net : NetResult) :
    ((generateEmbeddings (JSVal.vArr []) net).result = Except.ok JSVal.vNull ∧
      (generateEmbeddings (JSVal.vArr []) net).sentRequest = none) ∧
    ((generateEmbeddings JSVal.vNull net).result = Except.ok JSVal.vNull ∧
      (generateEmbeddings JSVal.vNull net).sentRequest = none) ∧
    ((generateEmbeddings JSVal.vUndefined net).result = Except.ok JSVal.vNull ∧
      (generateEmbeddings JSVal.vUndefined net).sentRequest = none) :=
  ⟨⟨rfl, rfl⟩, ⟨rfl, rfl⟩, ⟨rfl, rfl⟩⟩

/-- C7: for every string longer than 1000 characters, the embedding
normalization is exactly the first 1000 characters, and normalizing
the already-truncated string again is a no-op (idempotence). -/
theorem embedding_truncation_idempotent (s : String) (h : 1000 < s.length) :
    normalizeItem (JSVal.vStr s) = Except.ok (jsSubstring0 s 1000) ∧
    (jsSubstring0 s 1000).length = 1000 ∧
    normalizeItem (JSVal.vStr (jsSubstring0 s 1000)) = Except.ok (jsSubstring0 s 1000) := by
  refine ⟨rfl, ?_, ?_⟩
  · rw [jsSubstring0_length]
    omega
  · show Except.ok (jsSubstring0 (jsSubstring0 s 1000) 1000) = _
    rw [jsSubstring0_idem]

/-- C7 witness: truncation of a concrete 1001-character string. -/
theorem embedding_truncation_idempotent_witness :
    1000 < longA.length ∧
    (normalizeItem (JSVal.vStr longA) = Except.ok (jsSubstring0 longA 1000) ∧
     (jsSubstring0 longA 1000).length = 1000 ∧
     normalizeItem (JSVal.vStr (jsSubstring0 longA 1000)) =
      Except.ok (jsSubstring0 longA 1000)) :=
  ⟨by show 1000 < (List.replicate 1001 'a').length; rw [List.length_replicate]; omega,
   embedding_truncation_idempotent longA
     (by show 1000 < (List.replicate 1001 'a').length; rw [List.length_replicate]; omega)⟩

/-- C8 counterexample: an object whose `text` field is the empty
string has a `text` field, yet its normalization is the generic JSON
serialization of the whole object (the empty string is falsy, so the
`item.text` check falls through), not the truncation of the field. -/
theorem normalizeItem_empty_text_field_serialized :
    normalizeItem (JSVal.vObj [("text", JSVal.vStr "")]) =
      Except.ok "\x7b\"text\":\"\"\x7d" ∧
    ("\x7b\"text\":\"\"\x7d" : String) ≠ jsSubstring0 "" 1000 :=
  ⟨rfl, by decide⟩

/-- C8 amended: normalization checks string, then truthy-`text`
object, then generic object: for every object whose `text` field is a
non-empty string, the normalized form is the truncation of that field
(never the generic serialization); an object whose `text` field is
empty (falsy) falls through to generic serialization. -/
theorem normalizeItem_truthy_text_field (fields : List (String × JSVal)) (t : String)
    (hlook : lookupField fields "text" = JSVal.vStr t) (hne : t ≠ "") :
    normalizeItem (JSVal.vObj fields) = Except.ok (jsSubstring0 t 1000) := by
  simp [normalizeItem, hlook, truthy, hne]

/-- C8 witness: an object carrying `text := "hello"` normalizes to the
truncation of `"hello"`. -/
theorem normalizeItem_truthy_text_field_witness :
    (lookupField [("text", JSVal.vStr "hello")] "text" = JSVal.vStr "hello" ∧
      "hello" ≠ "") ∧
    normalizeItem (JSVal.vObj [("text", JSVal.vStr "hello")]) =
      Except.ok (jsSubstring0 "hello" 1000) :=
  ⟨⟨rfl, by decide⟩,
   normalizeItem_truthy_text_field [("text", JSVal.vStr "hello")] "hello" rfl (by decide)⟩

/-- C9: for every non-empty input array whose elements normalize, the
request `generateEmbeddings` sends uses model `"jina-clip-v2"`,
`normalized := true`, `embedding_type := "float"`, and carries exactly
one entry per input, where entry `i` is the normalization of input `i`. -/
theorem embedding_request_shape (items : List JSVal) (strs : List String) (net : NetResult)
    (hne : items ≠ []) (hnorm : mapNormalize items = Except.ok strs) :
    ∃ req, (generateEmbeddings (JSVal.vArr items) net).sentRequest = some req ∧
      req.model = "jina-clip-v2" ∧ req.normalized = true ∧
      req.embedding_type = "float" ∧ req.input.length = items.length ∧
      ∀ i (hi : i < items.length) (hi' : i < req.input.length),
        normalizeItem (items.get ⟨i, hi⟩) = Except.ok (req.input.get ⟨i, hi'⟩).text := by
  obtain ⟨hlen, hget⟩ := mapNormalize_ok items strs hnorm
  refine ⟨buildEmbeddingRequest strs, ?_, rfl, rfl, rfl, ?_, ?_⟩
  · cases items with
    | nil => exact absurd rfl hne
    | cons x xs =>
      simp only [generateEmbeddings, truthy, hnorm]
      cases net <;> rfl
  · simp [buildEmbeddingRequest, hlen]
  · intro i hi hi'
    have hi2 : i < strs.length := by
      simpa [buildEmbeddingRequest] using hi'
    have := hget i hi hi2
    simpa [buildEmbeddingRequest] using this

/-- C9 witness: the request for the two-element batch
`["alpha", "beta"]`. -/
theorem embedding_request_shape_witness :
    (([JSVal.vStr "alpha", JSVal.vStr "beta"] : List JSVal) ≠ [] ∧
     mapNormalize [JSVal.vStr "alpha", JSVal.vStr "beta"] = Except.ok ["alpha", "beta"]) ∧
    (∃ req, (generateEmbeddings (JSVal.vArr [JSVal.vStr "alpha", JSVal.vStr "beta"])
        (NetResult.fail "x")).sentRequest = some req ∧
      req.model = "jina-clip-v2" ∧ req.normalized = true ∧
      req.embedding_type = "float" ∧
      req.input.length = ([JSVal.vStr "alpha", JSVal.vStr "beta"] : List JSVal).length ∧
      ∀ i (hi : i < ([JSVal.vStr "alpha", JSVal.vStr "beta"] : List JSVal).length)
        (hi' : i < req.input.length),
        normalizeItem (([JSVal.vStr "alpha", JSVal.vStr "beta"] : List JSVal).get ⟨i, hi⟩) =
          Except.ok (req.input.get ⟨i, hi'⟩).text) :=
  ⟨⟨List.cons_ne_nil _ _, rfl⟩,
   embedding_request_shape [JSVal.vStr "alpha", JSVal.vStr "beta"] ["alpha", "beta"]
     (NetResult.fail "x") (List.cons_ne_nil _ _) rfl⟩

/-- C10: `generateGeminiResponse` performs no input validation on the
document: for every falsy document it still fills the template with
the serialized document and submits the prompt (for an `undefined`
document the serialization coerces to the literal string
`"undefined"`), never returning `null` before the call. -/
theorem gemini_undefined_document_submitted (document question : JSVal) (net : NetResult)
    (_hfalsy : truthy document = false) :
    (generateGeminiResponse document question net).sentRequest =
      some (replaceFirst (replaceFirst SYSTEM_PROMPT "{document}"
        ((jsonStringify document).getD "undefined"))
        "{question}" (jsToString question)) ∧
    (generateGeminiResponse JSVal.vUndefined question net).sentRequest =
      some (replaceFirst (replaceFirst SYSTEM_PROMPT "{document}" "undefined")
        "{question}" (jsToString question)) := by
  constructor <;> cases net <;> rfl

/-- C10 witness: the `undefined` document at a concrete question. -/
theorem gemini_undefined_document_submitted_witness :
    truthy JSVal.vUndefined = false ∧
    ((generateGeminiResponse JSVal.vUndefined (JSVal.vStr "why?") (NetResult.fail "x")).sentRequest =
      some (replaceFirst (replaceFirst SYSTEM_PROMPT "{document}"
        ((jsonStringify JSVal.vUndefined).getD "undefined"))
        "{question}" (jsToString (JSVal.vStr "why?"))) ∧
     (generateGeminiResponse JSVal.vUndefined (JSVal.vStr "why?") (NetResult.fail "x")).sentRequest =
      some (replaceFirst (replaceFirst SYSTEM_PROMPT "{document}" "undefined")
        "{question}" (jsToString (JSVal.vStr "why?")))) :=
  ⟨rfl, gemini_undefined_document_submitted JSVal.vUndefined (JSVal.vStr "why?")
    (NetResult.fail "x") rfl⟩
